import Mathlib

/-!
# Verification of the `ralph-tui` run / create-prd commands

Shallow embedding of the code in `src/commands/run.tsx` and the create-prd
command module, together with the parts of the session layer they invoke.
Functions that live in modules of this repository not present under `src/`
(`session/index`, the engine, the lock manager) are modelled from the spec and
say so in their doc comments.
-/

namespace RalphTui

/-! ## Data model: persisted session state (spec §3, `PersistedSessionState`) -/

/-- Session status values used by the run command:
`running`, `paused`, `interrupted`, `completed`, `failed` (spec §3). -/
inductive SessionStatus where
  | running
  | paused
  | interrupted
  | completed
  | failed
deriving DecidableEq, Repr

/-- Modelled from the spec: `IterationResult` (spec §3) — the engine type is not
under `src/`; the run command handlers read `iteration`, `task.id`,
`taskCompleted`, `durationMs` from it. -/
structure IterationResult where
  iteration : Nat
  taskId : String
  taskCompleted : Bool
  durationMs : Nat
  error : Option String
deriving DecidableEq, Repr

/-- The persisted session snapshot (spec §3 Session). Fields not read or written
by the run command's handlers (plugin names, epic id, paths) are elided; the
handlers treat them as opaque and never change them. -/
structure PersistedSessionState where
  sessionId : String
  status : SessionStatus
  isPaused : Bool
  pausedAt : Option Nat
  currentIteration : Nat
  tasksCompleted : Nat
  totalTasks : Nat
  lastError : Option String
  updatedAt : Nat
deriving DecidableEq, Repr

/-! ## Session lifecycle operations

`createPersistedSession`, `updateSessionAfterIteration`, `pauseSession`,
`completeSession`, `failSession` and `isSessionResumable` are imported by
`run.tsx` from `../session/index.js`, which is not under `src/`; they are
modelled from the spec (§4.8 Session Lifecycle, §3 invariants). -/

/-- Modelled from the spec: `createPersistedSession` (session module not under
`src/`). Spec §4.8: `create(params)` snapshots the tracker's task list and
initialises counters; the session starts `running` and not paused. -/
def createPersistedSession (sessionId : String) (totalTasks : Nat) (now : Nat) :
    PersistedSessionState :=
  { sessionId := sessionId
    status := .running
    isPaused := false
    pausedAt := none
    currentIteration := 0
    tasksCompleted := 0
    totalTasks := totalTasks
    lastError := none
    updatedAt := now }

/-- Modelled from the spec: `updateSessionAfterIteration` (session module not
under `src/`). Spec §4.8: `fold(session, iter_result)` increments
`current_iteration`, increments `tasks_completed` if the result flipped a task
to completed, updates `updated_at`, clears `last_error` on success or sets it
on failure. -/
def updateSessionAfterIteration (now : Nat) (s : PersistedSessionState)
    (r : IterationResult) : PersistedSessionState :=
  { s with
    currentIteration := s.currentIteration + 1
    tasksCompleted := s.tasksCompleted + (if r.taskCompleted then 1 else 0)
    updatedAt := now
    lastError := r.error }

/-- Modelled from the spec: `pauseSession` (session module not under `src/`).
Spec §4.7: `pause()` moves the session to `paused` and persists it; spec §3
invariant 4: the persisted snapshot has `status = paused` whenever `is_paused`
is true, and `paused_at` records when. -/
def pauseSession (now : Nat) (s : PersistedSessionState) : PersistedSessionState :=
  { s with status := .paused, isPaused := true, pausedAt := some now, updatedAt := now }

/-- Modelled from the spec: `completeSession` (session module not under
`src/`). Marks the session `completed` (spec §3 status lifecycle). -/
def completeSession (now : Nat) (s : PersistedSessionState) : PersistedSessionState :=
  { s with status := .completed, updatedAt := now }

/-- Modelled from the spec: `failSession` (session module not under `src/`).
Marks the session `failed` (spec §3 status lifecycle). -/
def failSession (now : Nat) (s : PersistedSessionState) : PersistedSessionState :=
  { s with status := .failed, updatedAt := now }

/-- Modelled from the spec: `isSessionResumable` (session module not under
`src/`). Spec §4.8: resumable iff `status ∈ {running, paused, interrupted}`
and not all tasks completed. -/
def isSessionResumable (s : PersistedSessionState) : Bool :=
  (s.status == .running || s.status == .paused || s.status == .interrupted)
    && s.tasksCompleted < s.totalTasks

/-! ## Engine events and observable actions

`run.tsx` subscribes to the engine's event bus in both modes
(`runWithTui` lines 350–369, `runHeadless` lines 479–580). The event variants
are those of spec §6.1; constructors carry only the fields the run command's
handlers actually read. -/

/-- Engine events observed by the run command (spec §6.1). `agentOutput`'s
Boolean is true for the stdout stream. -/
inductive EngineEvent where
  | engineStarted (totalTasks : Nat)
  | iterationStarted (iteration : Nat) (taskId : String)
  | iterationCompleted (result : IterationResult)
  | iterationFailed (iteration : Nat) (taskId : String)
  | iterationRetrying (iteration : Nat) (taskId : String)
  | iterationSkipped (iteration : Nat)
  | agentOutput (stdoutStream : Bool) (data : String)
  | taskSelected (taskId : String) (iteration : Nat)
  | enginePaused (currentIteration : Nat)
  | engineResumed (fromIteration : Nat)
  | engineStopped (reason : String)
  | allComplete (totalCompleted : Nat)
  | taskCompleted (taskId : String)
deriving DecidableEq, Repr

/-- Observable actions of the run command. `log m` is a call of the structured
logger (or of `console`), identified by the method invoked; `save s ok` is a
call of `savePersistedSession` on snapshot `s` whose write succeeded iff `ok`
(the fire-and-forget calls attach an empty `.catch`, so the caller never sees
`ok`); the rest are the session-file delete, engine dispose, lock release,
`endSession`, and `process.exit`. -/
inductive Action where
  | log (method : String)
  | save (s : PersistedSessionState) (ok : Bool)
  | deleteSessionFile
  | disposeEngine
  | releaseLock
  | endSession (outcome : String)
  | exitProcess (code : Nat)
deriving DecidableEq, Repr

/-- The in-memory `currentState` update both event handlers perform
(`runWithTui` lines 350–369 and `runHeadless` lines 509–514/552–566 compute the
same three updates): `iteration:completed` folds the result via
`updateSessionAfterIteration`; `engine:paused` applies `pauseSession`;
`engine:resumed` spreads `status: running, isPaused: false, pausedAt:
undefined`; every other event leaves the state unchanged. -/
def foldEvent (now : Nat) (s : PersistedSessionState) (e : EngineEvent) :
    PersistedSessionState :=
  match e with
  | .iterationCompleted r => updateSessionAfterIteration now s r
  | .enginePaused _ => pauseSession now s
  | .engineResumed _ => { s with status := .running, isPaused := false, pausedAt := none }
  | _ => s

/-- One step of the headless event handler (`runHeadless`, lines 479–580):
the logger calls it makes, the `savePersistedSession` calls it issues, and the
updated `currentState`. `saveOk` is the outcome of the save issued during this
event, if any; the handler's `.catch` bodies are empty, so no action follows a
failed save. -/
def stepHeadless (now : Nat) (s : PersistedSessionState) (e : EngineEvent)
    (saveOk : Bool) : List Action × PersistedSessionState :=
  match e with
  | .engineStarted _ => ([.log "engineStarted"], s)
  | .iterationStarted _ _ => ([.log "progress"], s)
  | .iterationCompleted r =>
      ([.log "iterationComplete"]
        ++ (if r.taskCompleted then [.log "taskCompleted"] else [])
        ++ [.save (updateSessionAfterIteration now s r) saveOk],
       updateSessionAfterIteration now s r)
  | .iterationFailed _ _ => ([.log "iterationFailed"], s)
  | .iterationRetrying _ _ => ([.log "iterationRetrying"], s)
  | .iterationSkipped _ => ([.log "iterationSkipped"], s)
  | .agentOutput stdoutStream _ =>
      (if stdoutStream then [.log "agentOutput"] else [.log "agentError"], s)
  | .taskSelected _ _ => ([.log "taskSelected"], s)
  | .enginePaused _ =>
      ([.log "enginePaused", .save (pauseSession now s) saveOk], pauseSession now s)
  | .engineResumed _ =>
      ([.log "engineResumed",
        .save { s with status := .running, isPaused := false, pausedAt := none } saveOk],
       { s with status := .running, isPaused := false, pausedAt := none })
  | .engineStopped _ => ([.log "engineStopped"], s)
  | .allComplete _ => ([.log "allComplete"], s)
  | .taskCompleted _ => ([], s)

/-- One step of the TUI event handler (`runWithTui`, lines 350–369): identical
state updates and `savePersistedSession` calls, no logging; all other events
are ignored. -/
def stepTui (now : Nat) (s : PersistedSessionState) (e : EngineEvent)
    (saveOk : Bool) : List Action × PersistedSessionState :=
  match e with
  | .iterationCompleted r =>
      ([.save (updateSessionAfterIteration now s r) saveOk],
       updateSessionAfterIteration now s r)
  | .enginePaused _ =>
      ([.save (pauseSession now s) saveOk], pauseSession now s)
  | .engineResumed _ =>
      ([.save { s with status := .running, isPaused := false, pausedAt := none } saveOk],
       { s with status := .running, isPaused := false, pausedAt := none })
  | _ => ([], s)

/-- Run a handler over a whole event trace. Each event is paired with the
outcome of the save (if any) the handler issues while processing it; the
resulting action list concatenates the per-event actions in delivery order
(the bus delivers synchronously and in order, spec §4.1). -/
def runTrace (step : PersistedSessionState → EngineEvent → Bool →
    List Action × PersistedSessionState) (s : PersistedSessionState) :
    List (EngineEvent × Bool) → List Action × PersistedSessionState
  | [] => ([], s)
  | (e, ok) :: rest =>
      let p := step s e ok
      let q := runTrace step p.2 rest
      (p.1 ++ q.1, q.2)

/-- The snapshots handed to `savePersistedSession` within an action list. -/
def savedStates (acts : List Action) : List PersistedSessionState :=
  acts.filterMap fun a =>
    match a with
    | .save s _ => some s
    | _ => none

/-! ## Shutdown paths of `runHeadless` (lines 583–616) -/

/-- `gracefulShutdown` in `runHeadless` (lines 583–591): log the two interrupt
lines, set `status: 'interrupted'` on the current state, await
`savePersistedSession`, await `engine.dispose()`, then `process.exit(0)`.
The save is awaited without a catch, so the sequence models the non-throwing
run of it. -/
def gracefulShutdownHeadless (s : PersistedSessionState) : List Action :=
  [.log "info",
   .log "info",
   .save { s with status := .interrupted } true,
   .disposeEngine,
   .exitProcess 0]

/-- `handleSigterm` in `runHeadless` (lines 610–616): log, set
`status: 'interrupted'`, save, dispose, `process.exit(0)`. -/
def handleSigtermHeadless (s : PersistedSessionState) : List Action :=
  [.log "info",
   .save { s with status := .interrupted } true,
   .disposeEngine,
   .exitProcess 0]

/-- The double-press window of `runHeadless` (line 473). -/
def DOUBLE_PRESS_WINDOW_MS : Nat := 1000

/-- `handleSigint` in `runHeadless` (lines 594–607). `lastSigintTime` is the
millisecond clock value of the previous interrupt (initially `0`), `now` the
current `Date.now()`. The handler records `now`, and if the elapsed time is
strictly below the window it logs `Force quit!` and calls `process.exit(1)`;
otherwise it runs `gracefulShutdown`. Returns the new `lastSigintTime` and the
actions performed. -/
def handleSigint (s : PersistedSessionState) (lastSigintTime now : Nat) :
    Nat × List Action :=
  let timeSinceLastSigint : Int := (now : Int) - (lastSigintTime : Int)
  if timeSinceLastSigint < (DOUBLE_PRESS_WINDOW_MS : Int) then
    (now, [.log "warn", .exitProcess 1])
  else
    (now, gracefulShutdownHeadless s)

/-- `forceQuit` in `runWithTui` (lines 389–392): immediate `process.exit(1)`. -/
def forceQuitTui : List Action := [.exitProcess 1]

/-! ## End of run in `executeRunCommand` (lines 817–860) -/

/-- Engine status values (spec §4.7). -/
inductive EngineStatus where
  | idle
  | running
  | paused
  | stopping
  | stopped
deriving DecidableEq, Repr

/-- The fields of `engine.getState()` read by `executeRunCommand`
(lines 838–840). The engine is not under `src/`; the run command treats this
value as opaque input. -/
structure EngineFinalState where
  status : EngineStatus
  tasksCompleted : Nat
  totalTasks : Nat
deriving DecidableEq, Repr

/-- The `allComplete` test of `executeRunCommand` (lines 839–840):
`finalState.tasksCompleted >= finalState.totalTasks || finalState.status ===
'idle'`. -/
def allComplete (fs : EngineFinalState) : Bool :=
  decide (fs.totalTasks ≤ fs.tasksCompleted) || (fs.status == .idle)

/-- The tail of `executeRunCommand` after the run returns normally
(lines 837–860): when `allComplete`, mark the session completed, save it,
delete the session file; otherwise save the current state and keep the file.
Both branches then call `endSession`, release the lock, and return (normal
process exit, code 0). -/
def runEpilogue (now : Nat) (ps : PersistedSessionState) (fs : EngineFinalState) :
    List Action :=
  (if allComplete fs then
    [.save (completeSession now ps) true, .deleteSessionFile, .log "log"]
  else
    [.save ps true, .log "log"])
  ++ [.endSession (if allComplete fs then "completed" else "interrupted"),
      .releaseLock, .log "log"]

/-- The `catch` branch of `executeRunCommand` around the run (lines 823–835):
log the execution error, mark the session failed, save it, `endSession`
failed, release the lock, `process.exit(1)`. The session file is not
deleted. -/
def runExecutionErrorPath (now : Nat) (ps : PersistedSessionState) : List Action :=
  [.log "error",
   .save (failSession now ps) true,
   .endSession "failed",
   .releaseLock,
   .exitProcess 1]

/-! ## Lock acquisition (spec §4.3) and the run command's lock gate -/

/-- Contents of the lock file (spec §3 Lock). -/
structure LockInfo where
  pid : Nat
  sessionId : String
  acquiredAt : Nat
  host : String
deriving DecidableEq, Repr

/-- Result of `acquireLockWithPrompt` as read by `executeRunCommand`
(lines 726–737): whether the lock was acquired, and the holder's pid on a
conflict. -/
structure LockAcquireResult where
  acquired : Bool
  existingPid : Option Nat
deriving DecidableEq, Repr

/-- Modelled from the spec: `acquireLockWithPrompt` (lock manager not under
`src/`). Spec §4.3: no lock file (or a stale holder, i.e. a pid that no longer
exists on this host) acquires without `force`; a live holder on the same
working directory fails with a conflict naming the holder unless `force` is
set. In interactive mode (`nonInteractive = false`) a conflict may additionally
prompt before failing; in headless mode it is a hard error either way, so the
outcome does not depend on `nonInteractive`. -/
def acquireLockWithPrompt (existing : Option LockInfo) (holderLive : Bool)
    (force : Bool) (nonInteractive : Bool) : LockAcquireResult :=
  match existing with
  | none => { acquired := true, existingPid := none }
  | some l =>
      if !holderLive then { acquired := true, existingPid := none }
      else if force then { acquired := true, existingPid := none }
      else
        let _ := nonInteractive
        { acquired := false, existingPid := some l.pid }

/-- What `executeRunCommand` does with the lock result (lines 731–737): on
failure it prints the error and calls `process.exit(1)` before the engine is
created or started; on success it proceeds to the run. -/
inductive LockGateOutcome where
  | exitBeforeEngine (code : Nat)
  | proceed
deriving DecidableEq, Repr

/-- The lock gate of `executeRunCommand` (lines 731–737). -/
def lockGate (r : LockAcquireResult) : LockGateOutcome :=
  if r.acquired then .proceed else .exitBeforeEngine 1

/-! ## Exit codes -/

/-- The ways a run of the run command can terminate. -/
inductive RunTermination where
  | completed
  | fatalError
  | lockConflict
  | initFailure
  | interruptedGraceful
  | forceQuit
deriving DecidableEq, Repr

/-- The exit code the code actually produces on each termination:
normal completion returns from `executeRunCommand` (exit 0); fatal execution
errors, lock conflicts and engine-init failures call `process.exit(1)`
(lines 736, 797, 834); graceful interrupt shutdown calls `process.exit(0)`
(lines 590, 615); force-quit calls `process.exit(1)` (lines 391, 602). -/
def codeExitCode : RunTermination → Nat
  | .completed => 0
  | .fatalError => 1
  | .lockConflict => 1
  | .initFailure => 1
  | .interruptedGraceful => 0
  | .forceQuit => 1

/-- The spec's exit-code table (spec §6.5), for refinement comparison:
`0` completed, `1` fatal/lock conflict/init failure, `130` interrupted
gracefully, `137` force-quit. -/
def specExitCode : RunTermination → Nat
  | .completed => 0
  | .fatalError => 1
  | .lockConflict => 1
  | .initFailure => 1
  | .interruptedGraceful => 130
  | .forceQuit => 137

/-! ## JS `parseInt(s, 10)` -/

/-- Longest leading run of decimal digits read as a number; `none` when there
is no digit. -/
def digitsPrefix (cs : List Char) : Option Nat :=
  let ds := cs.takeWhile (·.isDigit)
  if ds.isEmpty then none
  else some (ds.foldl (fun acc c => acc * 10 + (c.toNat - '0'.toNat)) 0)

/-- JS `parseInt(s, 10)`: skip leading whitespace, read an optional sign and
then the longest prefix of decimal digits, ignoring any trailing characters;
`none` models `NaN` (no digit found). -/
def parseIntJS (s : String) : Option Int :=
  let cs := s.toList.dropWhile fun c =>
    c == ' ' || c == '\t' || c == '\n' || c == '\r'
  match cs with
  | '-' :: rest => (digitsPrefix rest).map fun n => -(n : Int)
  | '+' :: rest => (digitsPrefix rest).map fun n => (n : Int)
  | _ => (digitsPrefix cs).map fun n => (n : Int)

/-! ## `parseRunArgs` (`run.tsx` lines 57–147) -/

/-- `ExtendedRuntimeOptions` as populated by `parseRunArgs`: every value flag
stores an `Option`, every boolean flag is only ever set to `true`. -/
structure ExtendedRuntimeOptions where
  epicId : Option String := none
  prdPath : Option String := none
  agent : Option String := none
  model : Option String := none
  tracker : Option String := none
  iterations : Option Int := none
  iterationDelay : Option Int := none
  cwd : Option String := none
  resume : Bool := false
  force : Bool := false
  headless : Bool := false
  noSetup : Bool := false
deriving DecidableEq, Repr

/-- JS `String.prototype.startsWith`: the receiver's character sequence begins
with the argument's. -/
def jsStartsWith (s pre : String) : Bool :=
  pre.toList.isPrefixOf s.toList

/-- The guard `if (nextArg && !nextArg.startsWith('-'))` of every value flag in
`parseRunArgs`: the next token exists, is not the empty string (JS truthiness),
and does not start with `-`. -/
def runValueOk (next : String) : Bool :=
  next != "" && !(jsStartsWith next "-")

/-- The loop body of `parseRunArgs` (lines 60–144) as structural recursion on
the remaining argument list. A value flag whose guard fails does not advance
`i`, so the following token is re-examined; an unrecognised token matches no
`case` and is skipped. -/
def parseRunArgsGo (opts : ExtendedRuntimeOptions) :
    List String → ExtendedRuntimeOptions
  | [] => opts
  | arg :: rest =>
    if arg == "--epic" then
      match rest with
      | next :: rest2 =>
          if runValueOk next then parseRunArgsGo { opts with epicId := some next } rest2
          else parseRunArgsGo opts (next :: rest2)
      | [] => opts
    else if arg == "--prd" then
      match rest with
      | next :: rest2 =>
          if runValueOk next then parseRunArgsGo { opts with prdPath := some next } rest2
          else parseRunArgsGo opts (next :: rest2)
      | [] => opts
    else if arg == "--agent" then
      match rest with
      | next :: rest2 =>
          if runValueOk next then parseRunArgsGo { opts with agent := some next } rest2
          else parseRunArgsGo opts (next :: rest2)
      | [] => opts
    else if arg == "--model" then
      match rest with
      | next :: rest2 =>
          if runValueOk next then parseRunArgsGo { opts with model := some next } rest2
          else parseRunArgsGo opts (next :: rest2)
      | [] => opts
    else if arg == "--tracker" then
      match rest with
      | next :: rest2 =>
          if runValueOk next then parseRunArgsGo { opts with tracker := some next } rest2
          else parseRunArgsGo opts (next :: rest2)
      | [] => opts
    else if arg == "--iterations" then
      match rest with
      | next :: rest2 =>
          if runValueOk next then
            match parseIntJS next with
            | some n => parseRunArgsGo { opts with iterations := some n } rest2
            | none => parseRunArgsGo opts rest2
          else parseRunArgsGo opts (next :: rest2)
      | [] => opts
    else if arg == "--delay" then
      match rest with
      | next :: rest2 =>
          if runValueOk next then
            match parseIntJS next with
            | some n => parseRunArgsGo { opts with iterationDelay := some n } rest2
            | none => parseRunArgsGo opts rest2
          else parseRunArgsGo opts (next :: rest2)
      | [] => opts
    else if arg == "--cwd" then
      match rest with
      | next :: rest2 =>
          if runValueOk next then parseRunArgsGo { opts with cwd := some next } rest2
          else parseRunArgsGo opts (next :: rest2)
      | [] => opts
    else if arg == "--resume" then parseRunArgsGo { opts with resume := true } rest
    else if arg == "--force" then parseRunArgsGo { opts with force := true } rest
    else if arg == "--headless" || arg == "--no-tui" then
      parseRunArgsGo { opts with headless := true } rest
    else if arg == "--no-setup" then parseRunArgsGo { opts with noSetup := true } rest
    else parseRunArgsGo opts rest
termination_by l => l.length
decreasing_by all_goals simp_arith

/-- `parseRunArgs` (lines 57–147): fold the loop from empty options. -/
def parseRunArgs (args : List String) : ExtendedRuntimeOptions :=
  parseRunArgsGo {} args

/-- The tokens `parseRunArgs` recognises as flags. -/
def isRunFlag (t : String) : Bool :=
  t == "--epic" || t == "--prd" || t == "--agent" || t == "--model" ||
  t == "--tracker" || t == "--iterations" || t == "--delay" || t == "--cwd" ||
  t == "--resume" || t == "--force" || t == "--headless" || t == "--no-tui" ||
  t == "--no-setup"

/-- The value-taking flags of `parseRunArgs`. -/
def isRunValueFlag (t : String) : Bool :=
  t == "--epic" || t == "--prd" || t == "--agent" || t == "--model" ||
  t == "--tracker" || t == "--iterations" || t == "--delay" || t == "--cwd"

/-! ## `parseCreatePrdArgs` (create-prd command, lines 44–75) -/

/-- `CreatePrdArgs` as populated by `parseCreatePrdArgs`. Assigning
`args[++i]` past the end of the array stores `undefined`, which leaves the
option unset in this model. -/
structure CreatePrdArgs where
  cwd : Option String := none
  output : Option String := none
  stories : Option Int := none
  force : Bool := false
  agent : Option String := none
  timeout : Option Int := none
deriving DecidableEq, Repr

/-- Result of the create-prd argument parse: either the parsed options, or the
process exited (the `--help`/`-h` branch calls `process.exit(0)`). -/
inductive PrdParseResult where
  | ok (r : CreatePrdArgs)
  | exited (code : Nat)
deriving DecidableEq, Repr

/-- The loop of `parseCreatePrdArgs` (lines 47–72). Every value-taking flag
evaluates `args[++i]`, so the following token is consumed unconditionally;
`--stories`/`--timeout` run it through `parseInt(· ?? '', 10)` and only assign
on a number. `--help`/`-h` prints help and calls `process.exit(0)`, modelled as
`PrdParseResult.exited 0`. Unrecognised tokens match no branch and are
skipped. -/
def parseCreatePrdGo (r : CreatePrdArgs) :
    List String → PrdParseResult
  | [] => .ok r
  | arg :: rest =>
    if arg == "--cwd" || arg == "-C" then
      match rest with
      | t :: rest2 => parseCreatePrdGo { r with cwd := some t } rest2
      | [] => .ok r
    else if arg == "--output" || arg == "-o" then
      match rest with
      | t :: rest2 => parseCreatePrdGo { r with output := some t } rest2
      | [] => .ok r
    else if arg == "--stories" || arg == "-n" then
      match rest with
      | t :: rest2 =>
          match parseIntJS t with
          | some n => parseCreatePrdGo { r with stories := some n } rest2
          | none => parseCreatePrdGo r rest2
      | [] => .ok r
    else if arg == "--force" || arg == "-f" then
      parseCreatePrdGo { r with force := true } rest
    else if arg == "--agent" || arg == "-a" then
      match rest with
      | t :: rest2 => parseCreatePrdGo { r with agent := some t } rest2
      | [] => .ok r
    else if arg == "--timeout" || arg == "-t" then
      match rest with
      | t :: rest2 =>
          match parseIntJS t with
          | some n => parseCreatePrdGo { r with timeout := some n } rest2
          | none => parseCreatePrdGo r rest2
      | [] => .ok r
    else if arg == "--help" || arg == "-h" then .exited 0
    else parseCreatePrdGo r rest

/-- `parseCreatePrdArgs` (lines 44–75): fold the loop from empty options. -/
def parseCreatePrdArgs (args : List String) : PrdParseResult :=
  parseCreatePrdGo {} args

/-! ## Auxiliary definitions used by the statements below -/

/-- Events on which both run-command handlers issue a `savePersistedSession`
call: `iteration:completed`, `engine:paused`, `engine:resumed`. -/
def savingEvent : EngineEvent → Bool
  | .iterationCompleted _ => true
  | .enginePaused _ => true
  | .engineResumed _ => true
  | _ => false

/-- Spec §3 invariant 4 on one snapshot: `is_paused` implies the persisted
`status` is `paused`. -/
def pausedOk (s : PersistedSessionState) : Bool :=
  !s.isPaused || (s.status == .paused)

/-- Erase the write outcomes from an action list, keeping every call and its
arguments: two runs with the same scrubbed actions issued the same logger
calls and the same saves of the same snapshots in the same order. -/
def scrubSaveResults (acts : List Action) : List Action :=
  acts.map fun a =>
    match a with
    | .save s _ => .save s true
    | x => x

/-- A concrete freshly created session (3 tasks, clock 100), used as input for
the concrete instantiations below. -/
def sampleSession : PersistedSessionState := createPersistedSession "session-1" 3 100

/-- A concrete iteration result, used as input for the concrete instantiations
below. -/
def sampleResult : IterationResult :=
  { iteration := 1, taskId := "T1", taskCompleted := false, durationMs := 5, error := none }

/-! ## Helper lemmas -/

/-- Traces split across appended event lists: the actions concatenate and the
state threads through. -/
theorem runTrace_append (step : PersistedSessionState → EngineEvent → Bool →
    List Action × PersistedSessionState) (s : PersistedSessionState)
    (xs ys : List (EngineEvent × Bool)) :
    runTrace step s (xs ++ ys) =
      ((runTrace step s xs).1 ++ (runTrace step (runTrace step s xs).2 ys).1,
       (runTrace step (runTrace step s xs).2 ys).2) := by
  induction xs generalizing s with
  | nil => simp [runTrace]
  | cons p rest ih =>
      obtain ⟨e, ok⟩ := p
      simp [runTrace, ih]

/-- The headless handler's state update is `foldEvent`. -/
theorem stepHeadless_state (now : Nat) (s : PersistedSessionState) (e : EngineEvent)
    (ok : Bool) : (stepHeadless now s e ok).2 = foldEvent now s e := by
  cases e <;> rfl

/-- The TUI handler's state update is `foldEvent`. -/
theorem stepTui_state (now : Nat) (s : PersistedSessionState) (e : EngineEvent)
    (ok : Bool) : (stepTui now s e ok).2 = foldEvent now s e := by
  cases e <;> rfl

/-- `foldEvent` preserves the paused-snapshot invariant: the fold leaves
`isPaused` and `status` untouched, pausing establishes both, resuming clears
`isPaused`. -/
theorem foldEvent_pausedOk (now : Nat) (s : PersistedSessionState) (e : EngineEvent)
    (h : pausedOk s = true) : pausedOk (foldEvent now s e) = true := by
  cases e <;> simp_all [foldEvent, pausedOk, updateSessionAfterIteration, pauseSession]

/-- Every snapshot the headless handler saves during one event is the folded
state of that event. -/
theorem stepHeadless_saved (now : Nat) (s : PersistedSessionState) (e : EngineEvent)
    (ok : Bool) (x : PersistedSessionState)
    (hx : x ∈ savedStates (stepHeadless now s e ok).1) : x = foldEvent now s e := by
  cases e <;> simp_all [stepHeadless, foldEvent, savedStates]
  · rcases hx with ⟨a, ⟨-, rfl⟩, h⟩ | h
    · simp at h
    · exact h
  · rcases hx with ⟨a, ha, h⟩
    split at ha <;> simp_all

/-- Every snapshot the TUI handler saves during one event is the folded state
of that event. -/
theorem stepTui_saved (now : Nat) (s : PersistedSessionState) (e : EngineEvent)
    (ok : Bool) (x : PersistedSessionState)
    (hx : x ∈ savedStates (stepTui now s e ok).1) : x = foldEvent now s e := by
  cases e <;> simp_all [stepTui, foldEvent, savedStates]

/-- Invariant induction over a trace: for any handler whose per-event state
update is `foldEvent` and whose saves are of the folded state, every saved
snapshot and the final state satisfy the paused-snapshot invariant. -/
theorem runTrace_saved_pausedOk (step : PersistedSessionState → EngineEvent → Bool →
      List Action × PersistedSessionState) (now : Nat)
    (hstate : ∀ s e ok, (step s e ok).2 = foldEvent now s e)
    (hsaved : ∀ s e ok x, x ∈ savedStates (step s e ok).1 → x = foldEvent now s e)
    (s : PersistedSessionState) (evs : List (EngineEvent × Bool))
    (h : pausedOk s = true) :
    (∀ x ∈ savedStates (runTrace step s evs).1, pausedOk x = true)
    ∧ pausedOk (runTrace step s evs).2 = true := by
  induction evs generalizing s with
  | nil => simpa [runTrace, savedStates]
  | cons p rest ih =>
      obtain ⟨e, ok⟩ := p
      have hfold : pausedOk (foldEvent now s e) = true := foldEvent_pausedOk now s e h
      have := ih (foldEvent now s e) hfold
      constructor
      · intro x hx
        simp only [runTrace, savedStates, List.filterMap_append, List.mem_append] at hx
        rcases hx with hx | hx
        · have := hsaved s e ok x hx
          simp [this, hfold]
        · exact this.1 x (by simpa [savedStates, hstate] using hx)
      · simpa [runTrace, hstate] using this.2

/-- The headless handler's actions do not depend on the save outcome, apart
from the recorded outcome itself. -/
theorem stepHeadless_scrub (now : Nat) (s : PersistedSessionState) (e : EngineEvent)
    (ok ok' : Bool) :
    scrubSaveResults (stepHeadless now s e ok).1
      = scrubSaveResults (stepHeadless now s e ok').1 := by
  cases e <;> simp [stepHeadless, scrubSaveResults]

/-- The TUI handler's actions do not depend on the save outcome, apart from
the recorded outcome itself. -/
theorem stepTui_scrub (now : Nat) (s : PersistedSessionState) (e : EngineEvent)
    (ok ok' : Bool) :
    scrubSaveResults (stepTui now s e ok).1 = scrubSaveResults (stepTui now s e ok').1 := by
  cases e <;> simp [stepTui, scrubSaveResults]

/-! ## Claim theorems -/

/-- C1 (counterexample): the exit codes do not follow the spec's table. On a
force-quit — here a second SIGINT 400 ms after the first in headless mode —
the code logs a warning and calls `process.exit(1)`, but the table assigns
`137` to force-quit; and the headless graceful-interrupt shutdown ends in
`process.exit(0)` where the table assigns `130`. -/
theorem claimC1_counterexample :
    (handleSigint sampleSession 5000 5400).2 = [.log "warn", .exitProcess 1]
    ∧ specExitCode .forceQuit = 137
    ∧ (1 : Nat) ≠ specExitCode .forceQuit
    ∧ (gracefulShutdownHeadless sampleSession).getLast? = some (.exitProcess 0)
    ∧ specExitCode .interruptedGraceful = 130
    ∧ (0 : Nat) ≠ specExitCode .interruptedGraceful := by
  refine ⟨?_, rfl, by decide, rfl, rfl, by decide⟩
  decide

/-- C1 (amended): the run command exits `0` when the session completed and on
graceful interrupt, and `1` on fatal execution error, lock conflict,
engine-init failure, and force-quit; `130` and `137` are never used. The table
`codeExitCode` is cross-checked against the modelled termination paths: the
graceful shutdown and SIGTERM handlers end in `exit 0`, a double SIGINT (here
with zero elapsed time) and the TUI force-quit end in `exit 1`, the lock gate
and the execution-error path exit `1`. -/
theorem claimC1_amended_exit_codes (s : PersistedSessionState) (t : Nat) (p : Nat) :
    codeExitCode .completed = 0
    ∧ codeExitCode .fatalError = 1
    ∧ codeExitCode .lockConflict = 1
    ∧ codeExitCode .initFailure = 1
    ∧ codeExitCode .interruptedGraceful = 0
    ∧ codeExitCode .forceQuit = 1
    ∧ (gracefulShutdownHeadless s).getLast? = some (.exitProcess 0)
    ∧ (handleSigtermHeadless s).getLast? = some (.exitProcess 0)
    ∧ (handleSigint s t t).2.getLast? = some (.exitProcess 1)
    ∧ forceQuitTui = [.exitProcess 1]
    ∧ lockGate { acquired := false, existingPid := some p } = .exitBeforeEngine 1
    ∧ (runExecutionErrorPath t s).getLast? = some (.exitProcess 1) := by
  refine ⟨rfl, rfl, rfl, rfl, rfl, rfl, rfl, rfl, ?_, rfl, rfl, rfl⟩
  simp [handleSigint, DOUBLE_PRESS_WINDOW_MS]

/-- C2: the session file is deleted exactly on the successful completed
terminal — `executeRunCommand`'s `allComplete` test, i.e. all tasks completed
or engine status `idle` — and on no other termination path: not on a headless
graceful interrupt, not on SIGTERM, not on either SIGINT branch, not on the
execution-error path, not on the TUI force-quit. -/
theorem claimC2_session_file_delete (now : Nat) (ps : PersistedSessionState)
    (fs : EngineFinalState) (s : PersistedSessionState) (last t : Nat) :
    ((runEpilogue now ps fs).contains .deleteSessionFile) = allComplete fs
    ∧ ((gracefulShutdownHeadless s).contains .deleteSessionFile) = false
    ∧ ((handleSigtermHeadless s).contains .deleteSessionFile) = false
    ∧ (((handleSigint s last t).2).contains .deleteSessionFile) = false
    ∧ ((runExecutionErrorPath now ps).contains .deleteSessionFile) = false
    ∧ (forceQuitTui.contains .deleteSessionFile) = false := by
  refine ⟨?_, ?_, ?_, ?_, ?_, ?_⟩
  · by_cases hc : allComplete fs <;>
      simp [runEpilogue, hc, List.contains, gracefulShutdownHeadless]
  · simp [gracefulShutdownHeadless]
  · simp [handleSigtermHeadless]
  · by_cases hw : ((t : Int) - (last : Int) < (DOUBLE_PRESS_WINDOW_MS : Int)) <;>
      simp [handleSigint, hw, gracefulShutdownHeadless]
  · simp [runExecutionErrorPath]
  · simp [forceQuitTui]

/-- C3: in both modes, around any occurrence of an `iteration:completed`,
`engine:paused` or `engine:resumed` event the trace splits into the actions of
the prefix, the actions of that event's handler — which contain a
`savePersistedSession` call on the folded state — and the actions of the
suffix, so the save is issued before any later event (in particular any later
iteration) is observed; and after the engine stops, the epilogue of
`executeRunCommand` issues a save in both of its branches. -/
theorem claimC3_persist_after_events (now : Nat) (s0 : PersistedSessionState)
    (pre post : List (EngineEvent × Bool)) (e : EngineEvent) (ok : Bool)
    (h : savingEvent e = true) :
    ((runTrace (stepHeadless now) s0 (pre ++ (e, ok) :: post)).1 =
        (runTrace (stepHeadless now) s0 pre).1
        ++ (stepHeadless now (runTrace (stepHeadless now) s0 pre).2 e ok).1
        ++ (runTrace (stepHeadless now)
            (foldEvent now (runTrace (stepHeadless now) s0 pre).2 e) post).1
      ∧ Action.save (foldEvent now (runTrace (stepHeadless now) s0 pre).2 e) ok
          ∈ (stepHeadless now (runTrace (stepHeadless now) s0 pre).2 e ok).1)
    ∧ ((runTrace (stepTui now) s0 (pre ++ (e, ok) :: post)).1 =
        (runTrace (stepTui now) s0 pre).1
        ++ (stepTui now (runTrace (stepTui now) s0 pre).2 e ok).1
        ++ (runTrace (stepTui now)
            (foldEvent now (runTrace (stepTui now) s0 pre).2 e) post).1
      ∧ Action.save (foldEvent now (runTrace (stepTui now) s0 pre).2 e) ok
          ∈ (stepTui now (runTrace (stepTui now) s0 pre).2 e ok).1)
    ∧ (∀ fs, ∃ s1, Action.save s1 true ∈ runEpilogue now s0 fs) := by
  refine ⟨⟨?_, ?_⟩, ⟨?_, ?_⟩, ?_⟩
  · rw [runTrace_append]
    simp [runTrace, stepHeadless_state]
  · cases e <;> simp_all [savingEvent, stepHeadless, foldEvent]
  · rw [runTrace_append]
    simp [runTrace, stepTui_state]
  · cases e <;> simp_all [savingEvent, stepTui, foldEvent]
  · intro fs
    by_cases hc : allComplete fs
    · exact ⟨completeSession now s0, by simp [runEpilogue, hc]⟩
    · exact ⟨s0, by simp [runEpilogue, hc]⟩

/-- C3 (witness): instantiation at a concrete paused event around the empty
prefix and suffix. -/
theorem claimC3_witness :
    savingEvent (.enginePaused 2) = true
    ∧ Action.save (foldEvent 100 (runTrace (stepHeadless 100) sampleSession []).2
          (.enginePaused 2)) true
        ∈ (stepHeadless 100 (runTrace (stepHeadless 100) sampleSession []).2
            (.enginePaused 2) true).1 :=
  ⟨by decide,
   (claimC3_persist_after_events 100 sampleSession [] [] (.enginePaused 2) true
      (by decide)).1.2⟩

/-- C4 (counterexample): the invariant does not hold of every persisted
snapshot. Pause the sample session (`engine:paused` applies `pauseSession`, so
`isPaused = true` and `status = paused`), then interrupt: the headless SIGINT
graceful shutdown (run.tsx line 587) and the SIGTERM handler (line 612) spread
only `status: 'interrupted'` and save a snapshot that keeps `isPaused = true`
with `status = interrupted ≠ paused`; the execution-error path (line 829)
likewise saves `failSession`'s snapshot with `isPaused = true` and
`status = failed`. -/
theorem claimC4_counterexample :
    (pauseSession 100 sampleSession).isPaused = true
    ∧ savedStates (gracefulShutdownHeadless (pauseSession 100 sampleSession))
        = [{ pauseSession 100 sampleSession with status := .interrupted }]
    ∧ ({ pauseSession 100 sampleSession with status := .interrupted }).isPaused = true
    ∧ ({ pauseSession 100 sampleSession with
          status := .interrupted }).status ≠ SessionStatus.paused
    ∧ savedStates (handleSigtermHeadless (pauseSession 100 sampleSession))
        = [{ pauseSession 100 sampleSession with status := .interrupted }]
    ∧ savedStates (runExecutionErrorPath 200 (pauseSession 100 sampleSession))
        = [failSession 200 (pauseSession 100 sampleSession)]
    ∧ (failSession 200 (pauseSession 100 sampleSession)).isPaused = true
    ∧ (failSession 200 (pauseSession 100 sampleSession)).status ≠ SessionStatus.paused := by
  refine ⟨rfl, by decide, rfl, by decide, by decide, by decide, rfl, by decide⟩

/-- C4 (amended): on every snapshot persisted by the engine event handlers —
the saves after `iteration:completed`, `engine:paused` and `engine:resumed` in
both modes — `isPaused = true` implies `status = paused`, starting from any
state satisfying the invariant; and the `engine:resumed` handler of each mode
produces — and saves, before any later save — exactly the state with
`status = running`, `isPaused = false` and `pausedAt` cleared. The shutdown
and failure saves (graceful interrupt, SIGTERM, execution error) override only
`status` and may persist `isPaused = true` with status `interrupted` or
`failed`, as the counterexample shows. -/
theorem claimC4_paused_snapshot_invariant (now : Nat) (s0 : PersistedSessionState)
    (evs : List (EngineEvent × Bool)) (h : pausedOk s0 = true) :
    (∀ x ∈ savedStates (runTrace (stepHeadless now) s0 evs).1, pausedOk x = true)
    ∧ (∀ x ∈ savedStates (runTrace (stepTui now) s0 evs).1, pausedOk x = true)
    ∧ (∀ s i ok, stepHeadless now s (.engineResumed i) ok =
        ([.log "engineResumed",
          .save { s with status := .running, isPaused := false, pausedAt := none } ok],
         { s with status := .running, isPaused := false, pausedAt := none }))
    ∧ (∀ s i ok, stepTui now s (.engineResumed i) ok =
        ([.save { s with status := .running, isPaused := false, pausedAt := none } ok],
         { s with status := .running, isPaused := false, pausedAt := none })) := by
  refine ⟨?_, ?_, fun s i ok => rfl, fun s i ok => rfl⟩
  · exact (runTrace_saved_pausedOk (stepHeadless now) now (stepHeadless_state now)
      (stepHeadless_saved now) s0 evs h).1
  · exact (runTrace_saved_pausedOk (stepTui now) now (stepTui_state now)
      (stepTui_saved now) s0 evs h).1

/-- C4 (witness): instantiation at a fresh session and a concrete
pause-then-resume trace. -/
theorem claimC4_witness :
    pausedOk sampleSession = true
    ∧ (∀ x ∈ savedStates (runTrace (stepHeadless 100) sampleSession
        [(.enginePaused 2, true), (.engineResumed 2, true)]).1, pausedOk x = true) :=
  ⟨by decide,
   (claimC4_paused_snapshot_invariant 100 sampleSession
      [(.enginePaused 2, true), (.engineResumed 2, true)] (by decide)).1⟩

/-- C5: in headless mode a second SIGINT whose elapsed time since the first is
strictly below the 1000 ms window terminates immediately with
`process.exit(1)` — a non-zero code — while a first SIGINT (no prior
interrupt, clock at least one window) runs the graceful shutdown sequence. -/
theorem claimC5_sigint_double_press (s : PersistedSessionState) (t1 t2 now : Nat)
    (hwin : (t2 : Int) - (t1 : Int) < (DOUBLE_PRESS_WINDOW_MS : Int))
    (hfirst : DOUBLE_PRESS_WINDOW_MS ≤ now) :
    (handleSigint s t1 t2).2 = [.log "warn", .exitProcess 1]
    ∧ (∀ c, Action.exitProcess c ∈ (handleSigint s t1 t2).2 → c ≠ 0)
    ∧ handleSigint s 0 now = (now, gracefulShutdownHeadless s) := by
  have h2 : (handleSigint s t1 t2).2 = [.log "warn", .exitProcess 1] := by
    simp [handleSigint, hwin]
  refine ⟨h2, ?_, ?_⟩
  · intro c hc
    rw [h2] at hc
    rcases List.mem_cons.mp hc with h | h
    · simp at h
    · simp at h
      omega
  · simp only [handleSigint]
    rw [if_neg]
    simp only [DOUBLE_PRESS_WINDOW_MS] at hfirst ⊢
    push_cast
    omega

/-- C5 (witness): instantiation with interrupts at 5000 ms and 5400 ms (400 ms
apart, inside the window) and a first interrupt at 5000 ms. -/
theorem claimC5_witness :
    ((5400 : Nat) : Int) - ((5000 : Nat) : Int) < (DOUBLE_PRESS_WINDOW_MS : Int)
    ∧ DOUBLE_PRESS_WINDOW_MS ≤ 5000
    ∧ (handleSigint sampleSession 5000 5400).2 = [.log "warn", .exitProcess 1]
    ∧ handleSigint sampleSession 0 5000 = (5000, gracefulShutdownHeadless sampleSession) :=
  ⟨by decide, by decide,
   (claimC5_sigint_double_press sampleSession 5000 5400 5000 (by decide) (by decide)).1,
   (claimC5_sigint_double_press sampleSession 5000 5400 5000 (by decide) (by decide)).2.2⟩

/-- C6: acquiring the lock over a live holder fails with a conflict naming the
holder's pid unless `force` is set (and succeeds with `force`), for any
interactivity mode; and `executeRunCommand`'s lock gate turns the conflict
into `process.exit(1)` before the engine is created or started. -/
theorem claimC6_lock_conflict_hard_error (l : LockInfo) (ni : Bool) :
    acquireLockWithPrompt (some l) true false ni =
      { acquired := false, existingPid := some l.pid }
    ∧ acquireLockWithPrompt (some l) true true ni =
      { acquired := true, existingPid := none }
    ∧ lockGate { acquired := false, existingPid := some l.pid } = .exitBeforeEngine 1 :=
  ⟨rfl, rfl, rfl⟩

/-- C7 (counterexample): a failing `savePersistedSession` is not logged. At a
concrete failing save on an `iteration:completed` event, the headless
handler's full action list is one logger call (reporting the iteration, made
before the save) followed by the failed save, and the failed save is the last
action — the empty `.catch` body logs nothing; the TUI handler's action list
is the failed save alone, with no logging at all. -/
theorem claimC7_counterexample :
    (stepHeadless 100 sampleSession (.iterationCompleted sampleResult) false).1
      = [.log "iterationComplete",
         .save (updateSessionAfterIteration 100 sampleSession sampleResult) false]
    ∧ (stepHeadless 100 sampleSession (.iterationCompleted sampleResult) false).1.getLast?
      = some (.save (updateSessionAfterIteration 100 sampleSession sampleResult) false)
    ∧ (stepTui 100 sampleSession (.iterationCompleted sampleResult) false).1
      = [.save (updateSessionAfterIteration 100 sampleSession sampleResult) false] := by
  refine ⟨?_, ?_, ?_⟩ <;> decide

/-- C7 (amended): persistence failures are silently swallowed and never affect
the run. Two traces over the same events whose saves fail differently produce
the same actions up to the recorded outcomes — same logger calls, same saves
of the same snapshots, in the same order — and the same final in-memory state,
in both modes. -/
theorem claimC7_amended_saves_do_not_affect_run (now : Nat)
    (s0 : PersistedSessionState) (evs evs' : List (EngineEvent × Bool))
    (h : evs.map Prod.fst = evs'.map Prod.fst) :
    (scrubSaveResults (runTrace (stepHeadless now) s0 evs).1
        = scrubSaveResults (runTrace (stepHeadless now) s0 evs').1
      ∧ (runTrace (stepHeadless now) s0 evs).2 = (runTrace (stepHeadless now) s0 evs').2)
    ∧ (scrubSaveResults (runTrace (stepTui now) s0 evs).1
        = scrubSaveResults (runTrace (stepTui now) s0 evs').1
      ∧ (runTrace (stepTui now) s0 evs).2 = (runTrace (stepTui now) s0 evs').2) := by
  induction evs generalizing evs' s0 with
  | nil =>
      cases evs' with
      | nil => simp
      | cons q rest' => simp at h
  | cons p rest ih =>
      cases evs' with
      | nil => simp at h
      | cons q rest' =>
          obtain ⟨e, ok⟩ := p
          obtain ⟨e', ok'⟩ := q
          simp only [List.map_cons, List.cons.injEq] at h
          obtain ⟨rfl, hrest⟩ := h
          refine ⟨⟨?_, ?_⟩, ⟨?_, ?_⟩⟩
          · simp only [runTrace, scrubSaveResults, List.map_append]
            have h1 : (stepHeadless now s0 e ok).2 = (stepHeadless now s0 e ok').2 := by
              rw [stepHeadless_state, stepHeadless_state]
            rw [← scrubSaveResults, ← scrubSaveResults, ← scrubSaveResults,
              ← scrubSaveResults, stepHeadless_scrub now s0 e ok ok', h1]
            rw [(ih (stepHeadless now s0 e ok').2 rest' hrest).1.1]
          · simp only [runTrace]
            have h1 : (stepHeadless now s0 e ok).2 = (stepHeadless now s0 e ok').2 := by
              rw [stepHeadless_state, stepHeadless_state]
            rw [h1]
            exact (ih (stepHeadless now s0 e ok').2 rest' hrest).1.2
          · simp only [runTrace, scrubSaveResults, List.map_append]
            have h1 : (stepTui now s0 e ok).2 = (stepTui now s0 e ok').2 := by
              rw [stepTui_state, stepTui_state]
            rw [← scrubSaveResults, ← scrubSaveResults, ← scrubSaveResults,
              ← scrubSaveResults, stepTui_scrub now s0 e ok ok', h1]
            rw [(ih (stepTui now s0 e ok').2 rest' hrest).2.1]
          · simp only [runTrace]
            have h1 : (stepTui now s0 e ok).2 = (stepTui now s0 e ok').2 := by
              rw [stepTui_state, stepTui_state]
            rw [h1]
            exact (ih (stepTui now s0 e ok').2 rest' hrest).2.2

/-- C7 (witness): instantiation at one `iteration:completed` event whose save
succeeds in one trace and fails in the other. -/
theorem claimC7_witness :
    ([((EngineEvent.iterationCompleted sampleResult), true)].map Prod.fst
      = [((EngineEvent.iterationCompleted sampleResult), false)].map Prod.fst)
    ∧ (runTrace (stepHeadless 100) sampleSession
        [((EngineEvent.iterationCompleted sampleResult), true)]).2
      = (runTrace (stepHeadless 100) sampleSession
          [((EngineEvent.iterationCompleted sampleResult), false)]).2 :=
  ⟨by decide,
   (claimC7_amended_saves_do_not_affect_run 100 sampleSession
      [((EngineEvent.iterationCompleted sampleResult), true)]
      [((EngineEvent.iterationCompleted sampleResult), false)] (by decide)).1.2⟩

/-- C8: both headless interrupt paths — graceful SIGINT shutdown and SIGTERM —
persist exactly one snapshot, the current state with `status = interrupted`,
and that save occurs strictly before the `process.exit`; when not all tasks
are completed the saved snapshot is resumable. -/
theorem claimC8_interrupt_persists_before_exit (s : PersistedSessionState)
    (h : s.tasksCompleted < s.totalTasks) :
    savedStates (gracefulShutdownHeadless s) = [{ s with status := .interrupted }]
    ∧ (∃ i j : Nat, i < j
        ∧ (gracefulShutdownHeadless s)[i]? =
            some (Action.save { s with status := .interrupted } true)
        ∧ (gracefulShutdownHeadless s)[j]? = some (Action.exitProcess 0))
    ∧ savedStates (handleSigtermHeadless s) = [{ s with status := .interrupted }]
    ∧ (∃ i j : Nat, i < j
        ∧ (handleSigtermHeadless s)[i]? =
            some (Action.save { s with status := .interrupted } true)
        ∧ (handleSigtermHeadless s)[j]? = some (Action.exitProcess 0))
    ∧ isSessionResumable { s with status := .interrupted } = true := by
  refine ⟨by simp [gracefulShutdownHeadless, savedStates], ⟨2, 4, ?_, ?_, ?_⟩,
    by simp [handleSigtermHeadless, savedStates], ⟨1, 3, ?_, ?_, ?_⟩, ?_⟩
  · omega
  · rfl
  · rfl
  · omega
  · rfl
  · rfl
  · simpa [isSessionResumable] using h

/-- C8 (witness): instantiation at a fresh session with 0 of 3 tasks
completed. -/
theorem claimC8_witness :
    sampleSession.tasksCompleted < sampleSession.totalTasks
    ∧ isSessionResumable { sampleSession with status := .interrupted } = true :=
  ⟨by decide,
   (claimC8_interrupt_persists_before_exit sampleSession (by decide)).2.2.2.2⟩

/-- C9: `parseRunArgs` ignores unrecognised tokens — a token matching no flag
leaves the options unchanged and parsing continues with the remainder — and a
value-taking flag whose following token starts with `-` sets nothing and does
not consume that token, which is re-examined as the next argument; totality
over every argument list holds by construction, `parseRunArgsGo` being a total
function. -/
theorem claimC9_parseRunArgs_flags :
    (∀ (opts : ExtendedRuntimeOptions) (t : String) (rest : List String),
      isRunFlag t = false →
        parseRunArgsGo opts (t :: rest) = parseRunArgsGo opts rest)
    ∧ (∀ (opts : ExtendedRuntimeOptions) (f t : String) (rest : List String),
      isRunValueFlag f = true → jsStartsWith t "-" = true →
        parseRunArgsGo opts (f :: t :: rest) = parseRunArgsGo opts (t :: rest)) := by
  constructor
  · intro opts t rest h
    simp only [isRunFlag, Bool.or_eq_false_iff] at h
    rw [parseRunArgsGo.eq_def]
    simp [h.1.1.1.1.1.1.1.1.1.1.1.1, h.1.1.1.1.1.1.1.1.1.1.1.2, h.1.1.1.1.1.1.1.1.1.1.2,
      h.1.1.1.1.1.1.1.1.1.2, h.1.1.1.1.1.1.1.1.2, h.1.1.1.1.1.1.1.2, h.1.1.1.1.1.1.2,
      h.1.1.1.1.1.2, h.1.1.1.1.2, h.1.1.1.2, h.1.1.2, h.1.2, h.2]
  · intro opts f t rest hf ht
    have hok : runValueOk t = false := by simp [runValueOk, ht]
    simp only [isRunValueFlag, Bool.or_eq_true, beq_iff_eq] at hf
    rcases hf with ((((((hf | hf) | hf) | hf) | hf) | hf) | hf) | hf <;>
      subst hf <;> rw [parseRunArgsGo.eq_def] <;> simp [hok]

/-- C9 (witness): `--bogus` is skipped, and `--epic --force` leaves `epicId`
unset without consuming `--force`, which is then parsed as the force flag. -/
theorem claimC9_witness :
    isRunFlag "--bogus" = false
    ∧ parseRunArgsGo {} ["--bogus", "--force"] = parseRunArgsGo {} ["--force"]
    ∧ isRunValueFlag "--epic" = true
    ∧ jsStartsWith "--force" "-" = true
    ∧ parseRunArgsGo {} ["--epic", "--force"] = parseRunArgsGo {} ["--force"] :=
  ⟨by decide,
   claimC9_parseRunArgs_flags.1 {} "--bogus" ["--force"] (by decide),
   by decide, by decide,
   claimC9_parseRunArgs_flags.2 {} "--epic" "--force" [] (by decide) (by decide)⟩

/-- C10: `parseCreatePrdArgs` consumes the token after each value-taking flag
unconditionally — for `--cwd`/`-C`, `--output`/`-o` and `--agent`/`-a` the
token is stored even when it is another flag; for `--stories`/`-n` and
`--timeout`/`-t` a numeric token is stored, and a non-numeric token leaves the
field unset while still being skipped. -/
theorem claimC10_parseCreatePrd_consumes_values :
    (∀ (r : CreatePrdArgs) (t : String) (rest : List String),
      parseCreatePrdGo r ("--cwd" :: t :: rest) = parseCreatePrdGo { r with cwd := some t } rest
      ∧ parseCreatePrdGo r ("-C" :: t :: rest) = parseCreatePrdGo { r with cwd := some t } rest
      ∧ parseCreatePrdGo r ("--output" :: t :: rest)
          = parseCreatePrdGo { r with output := some t } rest
      ∧ parseCreatePrdGo r ("-o" :: t :: rest)
          = parseCreatePrdGo { r with output := some t } rest
      ∧ parseCreatePrdGo r ("--agent" :: t :: rest)
          = parseCreatePrdGo { r with agent := some t } rest
      ∧ parseCreatePrdGo r ("-a" :: t :: rest)
          = parseCreatePrdGo { r with agent := some t } rest)
    ∧ (∀ (r : CreatePrdArgs) (t : String) (rest : List String) (n : Int),
      parseIntJS t = some n →
        parseCreatePrdGo r ("--stories" :: t :: rest)
            = parseCreatePrdGo { r with stories := some n } rest
        ∧ parseCreatePrdGo r ("--timeout" :: t :: rest)
            = parseCreatePrdGo { r with timeout := some n } rest)
    ∧ (∀ (r : CreatePrdArgs) (t : String) (rest : List String),
      parseIntJS t = none →
        parseCreatePrdGo r ("--stories" :: t :: rest) = parseCreatePrdGo r rest
        ∧ parseCreatePrdGo r ("-n" :: t :: rest) = parseCreatePrdGo r rest
        ∧ parseCreatePrdGo r ("--timeout" :: t :: rest) = parseCreatePrdGo r rest
        ∧ parseCreatePrdGo r ("-t" :: t :: rest) = parseCreatePrdGo r rest) := by
  refine ⟨?_, ?_, ?_⟩
  · intro r t rest
    refine ⟨?_, ?_, ?_, ?_, ?_, ?_⟩ <;> simp [parseCreatePrdGo]
  · intro r t rest n h
    refine ⟨?_, ?_⟩ <;> simp [parseCreatePrdGo, h]
  · intro r t rest h
    refine ⟨?_, ?_, ?_, ?_⟩ <;> simp [parseCreatePrdGo, h]

/-- C10 (witness): `--stories --force` consumes `--force` as the (non-numeric)
value — the force flag is never seen — while `--cwd --force` stores
`--force` as the working directory. -/
theorem claimC10_witness :
    parseIntJS "--force" = none
    ∧ parseCreatePrdGo {} ["--stories", "--force"] = parseCreatePrdGo {} []
    ∧ parseCreatePrdGo {} ["--cwd", "--force"]
        = parseCreatePrdGo { cwd := some "--force" } [] :=
  ⟨by decide,
   (claimC10_parseCreatePrd_consumes_values.2.2 {} "--force" [] (by decide)).1,
   (claimC10_parseCreatePrd_consumes_values.1 {} "--force" []).1⟩

end RalphTui
